import Mathlib

/-!
Verification of the batch background-removal pipeline in `src/app.py`
(streamlit app: `process_single_image`, `create_zip_file`, and the batch
loop of `main`, lines 181-260).

External collaborators (PIL's `Image.open`/`convert`/`save`, rembg's
`remove`) are modelled as an abstract `Oracle` of possibly-failing
functions; a Python exception is modelled as `Except.error`.  The
sequential batch loop is embedded as explicit state passing over a
`BatchState`, with an event trace recording the progress-widget updates
(`progress_bar.progress` / `status_text.text`, lines 196-198) and the
completion of each iteration, so that temporal claims about progress
reporting can be stated.  A ZIP archive is modelled as the list of its
entries `(filename, bytes)` in write order; Python's
`zipfile.ZipFile.writestr` appends an entry unconditionally (duplicate
names are kept as separate entries), which the list model reflects.
-/

namespace BgRemover

/-- A PIL raster image, abstracted: its mode string and an opaque pixel
content identifier. -/
structure PILImage where
  mode : String
  data : Nat
deriving DecidableEq, Repr

/-- A streamlit `UploadedFile`: name, opaque byte content, size. -/
structure UploadedFile where
  name : String
  content : Nat
  size : Nat
deriving DecidableEq, Repr

/-- The external collaborators used by `app.py`: `Image.open` (decode,
may raise), `Image.convert` (mode conversion), rembg's `remove` (may
raise), and `Image.save` to PNG bytes. -/
structure Oracle where
  openImage : UploadedFile → Except String PILImage
  convert : PILImage → String → PILImage
  remove : PILImage → Except String PILImage
  encodePNG : PILImage → List Nat

/-- `process_single_image` (app.py lines 17-25): convert to RGB if the
mode differs, then call `remove`.  There is no try/except here: an
exception from `remove` propagates to the caller, modelled by returning
`Except.error`. -/
def process_single_image (O : Oracle) (image : PILImage) : Except String PILImage :=
  let image := if image.mode ≠ "RGB" then O.convert image "RGB" else image
  O.remove image

/-- Python `os.path.splitext(p)[0]` for a bare filename (no path
separator): split at the last dot, except that a name whose characters
before that dot are all dots (e.g. ".bashrc", "...") is not split. -/
def pySplitextStem (p : String) : String :=
  let cs := p.toList
  let dots := (cs.enum.filter (fun x => x.2 = '.')).map Prod.fst
  match dots.getLast? with
  | none => p
  | some d => if (cs.take d).all (· = '.') then p else String.mk (cs.take d)

/-- `create_zip_file` (app.py lines 27-45): for each (image, filename)
pair, derive `no_bg_<stem>.png` via `os.path.splitext` and write the
PNG-encoded image into the archive.  `writestr` appends entries in loop
order and never removes or replaces an earlier entry, so the archive is
the list of entries in write order. -/
def create_zip_file (O : Oracle) (processed_images : List PILImage)
    (original_filenames : List String) : List (String × List Nat) :=
  (processed_images.zip original_filenames).map (fun pr =>
    let name_without_ext := pySplitextStem pr.2
    let output_filename := "no_bg_" ++ name_without_ext ++ ".png"
    (output_filename, O.encodePNG pr.1))

/-- Python `s.split('.')` on the character list: splitting on every dot,
with `""` producing `[""]` and adjacent dots producing empty fields,
exactly as `str.split` with an explicit separator does. -/
def splitDotChars : List Char → List (List Char)
  | [] => [[]]
  | c :: rest =>
      let r := splitDotChars rest
      if c = '.' then [] :: r
      else (c :: r.headD []) :: r.tail

/-- Python `s.split('.')`. -/
def pySplitDot (s : String) : List String :=
  (splitDotChars s.toList).map String.mk

/-- The single-image download filename (app.py line 151):
`f"no_bg_\x7buploaded_file.name.split('.')[0]\x7d.png"` — note `split('.')[0]`
keeps only the text before the FIRST dot.  `str.split` always returns a
non-empty list, so the `[0]` indexing is modelled by `headD`. -/
def single_download_filename (name : String) : String :=
  "no_bg_" ++ ((pySplitDot name).headD "") ++ ".png"

/-- One observable event of the batch loop: a progress-widget update
(`progress_bar.progress((i+1)/N)` together with
`status_text.text("Processing i+1/N: name")`, lines 196-198), or the
completion of an item's iteration with its outcome. -/
inductive Event where
  | progress (done total : Nat) (name : String)
  | result (name : String) (ok : Bool)
deriving DecidableEq, Repr

/-- The body of the batch loop's try block up to the point an exception
can occur: `Image.open(uploaded_file)` then `process_single_image`
(app.py lines 201-202), with exception propagation. -/
def attempt (O : Oracle) (f : UploadedFile) : Except String PILImage :=
  match O.openImage f with
  | .error e => .error e
  | .ok img => process_single_image O img

/-- The mutable state of the batch loop (app.py lines 185-212):
`processed_images` (with `None` placeholders for failures),
`original_filenames`, `failed_files`, plus the event trace. -/
structure BatchState where
  processed_images : List (Option PILImage)
  original_filenames : List String
  failed_files : List String
  trace : List Event
deriving Repr

/-- One iteration of the batch loop (app.py lines 193-212): first the
progress update for item `i` (inside the try, lines 195-198), then the
attempt; on success append the image and filename, on exception record
the failed name and append a `None` placeholder to keep order. -/
def batchStep (O : Oracle) (total i : Nat) (f : UploadedFile) (s : BatchState) : BatchState :=
  let s := { s with trace := s.trace ++ [Event.progress (i + 1) total f.name] }
  match attempt O f with
  | .ok img =>
      { s with
        processed_images := s.processed_images ++ [some img]
        original_filenames := s.original_filenames ++ [f.name]
        trace := s.trace ++ [Event.result f.name true] }
  | .error _ =>
      { s with
        failed_files := s.failed_files ++ [f.name]
        processed_images := s.processed_images ++ [none]
        original_filenames := s.original_filenames ++ [f.name]
        trace := s.trace ++ [Event.result f.name false] }

/-- The batch loop `for i, uploaded_file in enumerate(uploaded_files)`
(app.py line 193), as a fold carrying the running index. -/
def batchLoop (O : Oracle) (total : Nat) : Nat → List UploadedFile → BatchState → BatchState
  | _, [], s => s
  | i, f :: rest, s => batchLoop O total (i + 1) rest (batchStep O total i f s)

/-- The "Remove failed files" loop (app.py lines 214-221): traverse the
zipped `(processed_images, original_filenames)` pairs in order, keeping
the image and filename exactly when the image is not `None`. -/
def partitionSuccess : List (Option PILImage × String) → List PILImage × List String
  | [] => ([], [])
  | (img, filename) :: rest =>
    let r := partitionSuccess rest
    match img with
    | some im => (im :: r.1, filename :: r.2)
    | none => r

/-- The artifacts of one batch run (app.py lines 223-260):
`successful_images`/`successful_filenames`, `failed_files`, the ZIP
archive when at least one item succeeded (`none` when the
`create_zip_file` call is skipped), whether the batch-level
"No images were successfully processed" error (line 260) was shown, and
the event trace. -/
structure BatchOutcome where
  successful_images : List PILImage
  successful_filenames : List String
  failed_files : List String
  archive : Option (List (String × List Nat))
  zeroSuccessErrorShown : Bool
  trace : List Event
deriving Repr

/-- The batch branch of `main` (app.py lines 181-260): run the loop over
all uploaded files, partition out the successes, and either build the
ZIP (`if successful_images:`, line 223) or show the batch-level error
and build nothing (line 260). -/
def mainBatch (O : Oracle) (uploaded_files : List UploadedFile) : BatchOutcome :=
  let s := batchLoop O uploaded_files.length 0 uploaded_files ⟨[], [], [], []⟩
  let p := partitionSuccess (s.processed_images.zip s.original_filenames)
  if p.1.isEmpty then
    { successful_images := p.1
      successful_filenames := p.2
      failed_files := s.failed_files
      archive := none
      zeroSuccessErrorShown := true
      trace := s.trace }
  else
    { successful_images := p.1
      successful_filenames := p.2
      failed_files := s.failed_files
      archive := some (create_zip_file O p.1 p.2)
      zeroSuccessErrorShown := false
      trace := s.trace }

/-! ### Closed forms of the loop state -/

/-- Closed form of `processed_images` after the loop. -/
def imagesOf (O : Oracle) (files : List UploadedFile) : List (Option PILImage) :=
  files.map (fun f => (attempt O f).toOption)

/-- Closed form of `failed_files` after the loop. -/
def failedOf (O : Oracle) (files : List UploadedFile) : List String :=
  (files.filter (fun f => !(attempt O f).isOk)).map (·.name)

/-- Closed form of `successful_filenames` after partitioning. -/
def successOf (O : Oracle) (files : List UploadedFile) : List String :=
  (files.filter (fun f => (attempt O f).isOk)).map (·.name)

/-- Closed form of the event trace: per item, the progress update is
emitted first (with count `i+1`), then the iteration completes. -/
def traceOf (O : Oracle) (total : Nat) : Nat → List UploadedFile → List Event
  | _, [] => []
  | i, f :: rest =>
      Event.progress (i + 1) total f.name ::
        Event.result f.name (attempt O f).isOk :: traceOf O total (i + 1) rest

theorem batchLoop_spec (O : Oracle) (total : Nat) :
    ∀ (files : List UploadedFile) (i : Nat) (s : BatchState),
      batchLoop O total i files s =
        ⟨s.processed_images ++ imagesOf O files,
         s.original_filenames ++ files.map (·.name),
         s.failed_files ++ failedOf O files,
         s.trace ++ traceOf O total i files⟩ := by
  intro files
  induction files with
  | nil =>
      intro i s
      simp [batchLoop, imagesOf, failedOf, traceOf]
  | cons f rest ih =>
      intro i s
      cases h : attempt O f with
      | ok img =>
          simp [batchLoop, ih, batchStep, h, imagesOf, failedOf, traceOf,
            Except.isOk, Except.toBool, Except.toOption, List.filter_cons]
      | error e =>
          simp [batchLoop, ih, batchStep, h, imagesOf, failedOf, traceOf,
            Except.isOk, Except.toBool, Except.toOption, List.filter_cons]

theorem partitionSuccess_cons_some (im : PILImage) (fn : String)
    (l : List (Option PILImage × String)) :
    partitionSuccess ((some im, fn) :: l) =
      (im :: (partitionSuccess l).1, fn :: (partitionSuccess l).2) := rfl

theorem partitionSuccess_cons_none (fn : String) (l : List (Option PILImage × String)) :
    partitionSuccess ((none, fn) :: l) = partitionSuccess l := rfl

theorem partitionSuccess_spec (O : Oracle) (files : List UploadedFile) :
    partitionSuccess ((imagesOf O files).zip (files.map (·.name))) =
      (files.filterMap (fun f => (attempt O f).toOption), successOf O files) := by
  induction files with
  | nil => rfl
  | cons f rest ih =>
      cases h : attempt O f with
      | ok img =>
          have h1 : imagesOf O (f :: rest) = some img :: imagesOf O rest := by
            simp [imagesOf, h, Except.toOption]
          have h2 : successOf O (f :: rest) = f.name :: successOf O rest := by
            simp [successOf, List.filter_cons, h, Except.isOk, Except.toBool]
          have h3 : (f :: rest).filterMap (fun g => (attempt O g).toOption)
              = img :: rest.filterMap (fun g => (attempt O g).toOption) := by
            simp [List.filterMap_cons, h, Except.toOption]
          rw [h1, List.map_cons, List.zip_cons_cons, partitionSuccess_cons_some,
            ih, h2, h3]
      | error e =>
          have h1 : imagesOf O (f :: rest) = none :: imagesOf O rest := by
            simp [imagesOf, h, Except.toOption]
          have h2 : successOf O (f :: rest) = successOf O rest := by
            simp [successOf, List.filter_cons, h, Except.isOk, Except.toBool]
          have h3 : (f :: rest).filterMap (fun g => (attempt O g).toOption)
              = rest.filterMap (fun g => (attempt O g).toOption) := by
            simp [List.filterMap_cons, h, Except.toOption]
          rw [h1, List.map_cons, List.zip_cons_cons, partitionSuccess_cons_none,
            ih, h2, h3]

theorem mainBatch_eq (O : Oracle) (files : List UploadedFile) :
    mainBatch O files =
      { successful_images := files.filterMap (fun f => (attempt O f).toOption)
        successful_filenames := successOf O files
        failed_files := failedOf O files
        archive :=
          if (files.filterMap (fun f => (attempt O f).toOption)).isEmpty then none
          else some (create_zip_file O
            (files.filterMap (fun f => (attempt O f).toOption)) (successOf O files))
        zeroSuccessErrorShown := (files.filterMap (fun f => (attempt O f).toOption)).isEmpty
        trace := traceOf O files.length 0 files } := by
  unfold mainBatch
  rw [batchLoop_spec]
  simp only [List.nil_append]
  rw [partitionSuccess_spec]
  by_cases hemp : (files.filterMap (fun f => (attempt O f).toOption)).isEmpty
  · simp [hemp]
  · simp [hemp]

/-! ### Event-trace views and auxiliary lemmas -/

/-- Extract the payload of a progress event. -/
def progressView : Event → Option (Nat × Nat × String)
  | .progress d t n => some (d, t, n)
  | .result _ _ => none

/-- Extract the payload of an iteration-completion event. -/
def resultView : Event → Option (String × Bool)
  | .result n ok => some (n, ok)
  | .progress _ _ _ => none

theorem traceOf_filterMap_result (O : Oracle) (total : Nat) (files : List UploadedFile) :
    ∀ i, (traceOf O total i files).filterMap resultView
      = files.map (fun f => (f.name, (attempt O f).isOk)) := by
  induction files with
  | nil => intro i; rfl
  | cons f rest ih =>
      intro i
      simp [traceOf, List.filterMap_cons, progressView, resultView, ih]

theorem traceOf_filterMap_progress (O : Oracle) (total : Nat) (files : List UploadedFile) :
    ∀ i, (traceOf O total i files).filterMap progressView
      = (files.enumFrom i).map (fun p => (p.1 + 1, total, p.2.name)) := by
  induction files with
  | nil => intro i; rfl
  | cons f rest ih =>
      intro i
      simp [traceOf, List.filterMap_cons, progressView, resultView,
        List.enumFrom_cons, ih]

theorem length_filter_add_length_not {α : Type} (p : α → Bool) (l : List α) :
    (l.filter p).length + (l.filter (fun a => !p a)).length = l.length := by
  induction l with
  | nil => rfl
  | cons a t ih =>
      cases h : p a <;> simp [List.filter_cons, h] <;> omega

theorem create_zip_file_cons (O : Oracle) (im : PILImage) (tl : List PILImage)
    (n : String) (ns : List String) :
    create_zip_file O (im :: tl) (n :: ns)
      = ("no_bg_" ++ pySplitextStem n ++ ".png", O.encodePNG im)
          :: create_zip_file O tl ns := rfl

theorem create_zip_file_eq_zipWith (O : Oracle) (imgs : List PILImage)
    (names : List String) :
    create_zip_file O imgs names
      = List.zipWith
          (fun im n => ("no_bg_" ++ pySplitextStem n ++ ".png", O.encodePNG im))
          imgs names := by
  unfold create_zip_file
  rw [List.zip_eq_zipWith, List.map_zipWith]

/-- A concrete instantiation of the external collaborators, used to
evaluate the pipeline on closed inputs: decoding fails exactly on files
with content 0, and removal fails exactly on images with pixel content
7. -/
def testOracle : Oracle where
  openImage := fun f =>
    if f.content = 0 then .error "cannot identify image file" else .ok ⟨"RGB", f.content⟩
  convert := fun img m => { img with mode := m }
  remove := fun img =>
    if img.data = 7 then .error "remove failed" else .ok ⟨"RGBA", img.data⟩
  encodePNG := fun img => [img.data]

/-! ### Claims -/

/-- C1: for every non-empty input sequence of uploaded items, the batch
run produces exactly one result per item: the number of successes plus
the number of failed names equals the number of input items. -/
theorem C1_one_result_per_item (O : Oracle) (files : List UploadedFile)
    (_hne : files ≠ []) :
    (mainBatch O files).successful_filenames.length
      + (mainBatch O files).failed_files.length = files.length := by
  rw [mainBatch_eq]
  simp only [successOf, failedOf, List.length_map]
  exact length_filter_add_length_not _ files

/-- Witness for C1 at a concrete two-item input (one success, one
failure). -/
theorem C1_one_result_per_item_witness :
    ([⟨"a.png", 1, 1⟩, ⟨"b.png", 0, 1⟩] : List UploadedFile) ≠ []
    ∧ (mainBatch testOracle [⟨"a.png", 1, 1⟩, ⟨"b.png", 0, 1⟩]).successful_filenames.length
      + (mainBatch testOracle [⟨"a.png", 1, 1⟩, ⟨"b.png", 0, 1⟩]).failed_files.length = 2 :=
  ⟨by decide, C1_one_result_per_item testOracle [⟨"a.png", 1, 1⟩, ⟨"b.png", 0, 1⟩] (by decide)⟩

/-- C2: the successes of a batch run are exactly the names of the items
whose attempt succeeded, filtered out of the input in input order, and
the failed names are exactly the names of the failing items in input
order; both are therefore sublists of the input name sequence, so the
relative order of the input (by original index) is preserved even when
successes and failures are interleaved. -/
theorem C2_order_preservation (O : Oracle) (files : List UploadedFile) :
    (mainBatch O files).successful_filenames
        = (files.filter (fun f => (attempt O f).isOk)).map (·.name)
    ∧ (mainBatch O files).successful_images
        = files.filterMap (fun f => (attempt O f).toOption)
    ∧ (mainBatch O files).failed_files
        = (files.filter (fun f => !(attempt O f).isOk)).map (·.name)
    ∧ (mainBatch O files).successful_filenames.Sublist (files.map (·.name))
    ∧ (mainBatch O files).failed_files.Sublist (files.map (·.name)) := by
  rw [mainBatch_eq]
  refine ⟨rfl, rfl, rfl, ?_, ?_⟩
  · show ((files.filter (fun f => (attempt O f).isOk)).map (·.name)).Sublist
      (files.map (·.name))
    exact (List.filter_sublist files).map (·.name)
  · show ((files.filter (fun f => !(attempt O f).isOk)).map (·.name)).Sublist
      (files.map (·.name))
    exact (List.filter_sublist files).map (·.name)

/-- C3: every item of the input is attempted exactly once, in input
order, regardless of prior outcomes: the sequence of iteration
completions recorded in the trace is exactly one per input item, and a
failure on one item never removes a later item from the sequence. -/
theorem C3_every_item_attempted (O : Oracle) (files : List UploadedFile) :
    (mainBatch O files).trace.filterMap resultView
      = files.map (fun f => (f.name, (attempt O f).isOk)) := by
  rw [mainBatch_eq]
  exact traceOf_filterMap_result O files.length files 0

/-- C4: evaluating `create_zip_file` at the failing input of two
successful items named "a.png" and "a.jpg" (same stem): both archive
entries are named `no_bg_a.png`; no numeric disambiguator is appended
to the second occurrence. -/
theorem C4_collision_not_disambiguated :
    (create_zip_file testOracle [⟨"RGBA", 1⟩, ⟨"RGBA", 2⟩] ["a.png", "a.jpg"]).map Prod.fst
      = ["no_bg_a.png", "no_bg_a.png"] := by decide

/-- C5 counterexample: on the empty input sequence the code builds no
archive at all and shows the batch-level error, contradicting the
claimed valid zero-entry archive and non-error outcome. -/
theorem C5_empty_input_counterexample :
    (mainBatch testOracle []).archive = none
    ∧ (mainBatch testOracle []).zeroSuccessErrorShown = true := ⟨rfl, rfl⟩

/-- C5 amended: running the batch pipeline on an empty item sequence
yields empty successes and empty failed names, but archive packaging is
skipped (no archive blob is built) and the zero-successes error branch
is taken, exactly as in the all-fail case. -/
theorem C5_empty_input_behavior (O : Oracle) :
    (mainBatch O []).successful_images = []
    ∧ (mainBatch O []).successful_filenames = []
    ∧ (mainBatch O []).failed_files = []
    ∧ (mainBatch O []).archive = none
    ∧ (mainBatch O []).zeroSuccessErrorShown = true :=
  ⟨rfl, rfl, rfl, rfl, rfl⟩

/-- C6: if every item of a non-empty batch fails, the outcome has empty
successes, the archive build is skipped (`create_zip_file` is never
called, the archive is absent), and the batch-level zero-successes
error is signaled while the per-item failures are separately reported
as the full list of input names. -/
theorem C6_all_fail_skips_archive (O : Oracle) (files : List UploadedFile)
    (_hne : files ≠ []) (hall : ∀ f ∈ files, (attempt O f).isOk = false) :
    (mainBatch O files).successful_images = []
    ∧ (mainBatch O files).successful_filenames = []
    ∧ (mainBatch O files).archive = none
    ∧ (mainBatch O files).zeroSuccessErrorShown = true
    ∧ (mainBatch O files).failed_files = files.map (·.name) := by
  have hnone : ∀ f ∈ files, (attempt O f).toOption = none := by
    intro f hf
    have hv := hall f hf
    cases h : attempt O f with
    | ok img => rw [h] at hv; simp [Except.isOk, Except.toBool] at hv
    | error e => rfl
  have hfm : files.filterMap (fun f => (attempt O f).toOption) = [] :=
    List.filterMap_eq_nil_iff.mpr hnone
  have hfilt : files.filter (fun f => (attempt O f).isOk) = [] := by
    rw [List.filter_eq_nil_iff]
    intro f hf
    simp [hall f hf]
  have hfail : files.filter (fun f => !(attempt O f).isOk) = files := by
    rw [List.filter_eq_self]
    intro f hf
    simp [hall f hf]
  rw [mainBatch_eq]
  refine ⟨hfm, ?_, ?_, ?_, ?_⟩
  · show successOf O files = []
    rw [successOf, hfilt, List.map_nil]
  · show (if (files.filterMap (fun f => (attempt O f).toOption)).isEmpty then none
      else some (create_zip_file O
        (files.filterMap (fun f => (attempt O f).toOption)) (successOf O files)))
      = none
    rw [hfm]
    rfl
  · show (files.filterMap (fun f => (attempt O f).toOption)).isEmpty = true
    rw [hfm]
    rfl
  · show failedOf O files = files.map (·.name)
    rw [failedOf, hfail]

/-- Witness for C6 at a concrete three-item input in which every item
fails to decode. -/
theorem C6_all_fail_skips_archive_witness :
    ([⟨"x.png", 0, 1⟩, ⟨"y.png", 0, 1⟩, ⟨"z.png", 0, 1⟩] : List UploadedFile) ≠ []
    ∧ (∀ f ∈ ([⟨"x.png", 0, 1⟩, ⟨"y.png", 0, 1⟩, ⟨"z.png", 0, 1⟩] : List UploadedFile),
        (attempt testOracle f).isOk = false)
    ∧ ((mainBatch testOracle [⟨"x.png", 0, 1⟩, ⟨"y.png", 0, 1⟩, ⟨"z.png", 0, 1⟩]).successful_images = []
      ∧ (mainBatch testOracle [⟨"x.png", 0, 1⟩, ⟨"y.png", 0, 1⟩, ⟨"z.png", 0, 1⟩]).successful_filenames = []
      ∧ (mainBatch testOracle [⟨"x.png", 0, 1⟩, ⟨"y.png", 0, 1⟩, ⟨"z.png", 0, 1⟩]).archive = none
      ∧ (mainBatch testOracle [⟨"x.png", 0, 1⟩, ⟨"y.png", 0, 1⟩, ⟨"z.png", 0, 1⟩]).zeroSuccessErrorShown = true
      ∧ (mainBatch testOracle [⟨"x.png", 0, 1⟩, ⟨"y.png", 0, 1⟩, ⟨"z.png", 0, 1⟩]).failed_files
        = ["x.png", "y.png", "z.png"]) :=
  ⟨by decide, by decide,
    C6_all_fail_skips_archive testOracle [⟨"x.png", 0, 1⟩, ⟨"y.png", 0, 1⟩, ⟨"z.png", 0, 1⟩]
      (by decide) (by decide)⟩

/-- C7 counterexample: a removal error is not caught inside
`process_single_image`: on this image the function propagates the
raised error to its caller (the batch loop) instead of returning a
Failure result carrying the source name — the catching happens only in
the batch loop's per-item try/except (app.py line 207), not at the
single-image boundary. -/
theorem C7_error_propagates_counterexample :
    process_single_image testOracle ⟨"RGB", 7⟩ = Except.error "remove failed" := rfl

/-- C7 amended: an error raised while decoding or processing a single
item escapes `process_single_image`, but the batch loop's per-item
handler catches it and converts it into a failure report carrying the
item's source name; no fault propagates past the batch loop. -/
theorem C7_batch_loop_catches (O : Oracle) (files : List UploadedFile)
    (f : UploadedFile) (hf : f ∈ files) (hfail : (attempt O f).isOk = false) :
    f.name ∈ (mainBatch O files).failed_files := by
  rw [mainBatch_eq]
  show f.name ∈ failedOf O files
  rw [failedOf]
  exact List.mem_map.mpr ⟨f, List.mem_filter.mpr ⟨hf, by simp [hfail]⟩, rfl⟩

/-- Witness for C7's amended statement: a single item that fails to
decode ends up, by name, in the failed list. -/
theorem C7_batch_loop_catches_witness :
    ((⟨"bad.png", 0, 1⟩ : UploadedFile) ∈ ([⟨"bad.png", 0, 1⟩] : List UploadedFile))
    ∧ (attempt testOracle ⟨"bad.png", 0, 1⟩).isOk = false
    ∧ "bad.png" ∈ (mainBatch testOracle [⟨"bad.png", 0, 1⟩]).failed_files :=
  ⟨by decide, by decide,
    C7_batch_loop_catches testOracle [⟨"bad.png", 0, 1⟩] ⟨"bad.png", 0, 1⟩
      (by decide) (by decide)⟩

/-- C8 counterexample: with the single item "a.png", the batch trace is
`[progress 1 1 "a.png", result "a.png" true]`: the progress update
reporting count 1 is emitted at the start of the iteration, strictly
before the item completes, so at the moment of the callback zero items
have completed while a completed count of 1 is reported — the callback
is not invoked after the item completes. -/
theorem C8_progress_before_completion :
    (mainBatch testOracle [⟨"a.png", 1, 1⟩]).trace
      = [Event.progress 1 1 "a.png", Event.result "a.png" true] := by decide

/-- C8 amended: the progress update fires exactly once per item, in
input order with no item skipped, at the start of item i's iteration
(before the item is processed), reporting `(i+1, N, name_i)`; the
reported counts 1, 2, ..., N never decrease, and in the trace every
progress event immediately precedes its own item's completion. -/
theorem C8_progress_once_per_item (O : Oracle) (files : List UploadedFile) :
    (mainBatch O files).trace.filterMap progressView
      = files.enum.map (fun p => (p.1 + 1, files.length, p.2.name))
    ∧ (mainBatch O files).trace = traceOf O files.length 0 files := by
  constructor
  · rw [mainBatch_eq]
    show (traceOf O files.length 0 files).filterMap progressView = _
    rw [traceOf_filterMap_progress O files.length files 0]
    rfl
  · rw [mainBatch_eq]

/-- C9 counterexample: for the multi-dot filename "a.b.png" the archive
entry keeps everything before the last dot (`no_bg_a.b.png`), but the
single-image download filename keeps only the text before the FIRST dot
(`no_bg_a.png`), so the two stems are not computed the same way and the
single-image name loses text before the last dot. -/
theorem C9_multi_dot_counterexample :
    (create_zip_file testOracle [⟨"RGBA", 3⟩] ["a.b.png"]).map Prod.fst = ["no_bg_a.b.png"]
    ∧ single_download_filename "a.b.png" = "no_bg_a.png"
    ∧ single_download_filename "a.b.png" ≠ "no_bg_a.b.png" := by
  refine ⟨by decide, by decide, by decide⟩

/-- C9 amended: every successful item's archive entry is named
`no_bg_<stem>.png` with the stem computed by `os.path.splitext` (text
before the final dot); the single-image download filename instead uses
`split('.')[0]` (text before the first dot), so only the archive naming
keeps all text before the last dot of a multi-dot filename. -/
theorem C9_archive_stem_last_dot (O : Oracle) (imgs : List PILImage) :
    ∀ (names : List String), imgs.length = names.length →
      (create_zip_file O imgs names).map Prod.fst
        = names.map (fun n => "no_bg_" ++ pySplitextStem n ++ ".png") := by
  induction imgs with
  | nil =>
      intro names h
      cases names with
      | nil => rfl
      | cons n ns => simp at h
  | cons im tl ih =>
      intro names h
      cases names with
      | nil => simp at h
      | cons n ns =>
          have h2 : tl.length = ns.length := by simpa using h
          rw [create_zip_file_cons, List.map_cons, List.map_cons, ih ns h2]

/-- Witness for C9's amended statement on a concrete two-item archive
with multi-dot filenames. -/
theorem C9_archive_stem_last_dot_witness :
    ([⟨"RGBA", 3⟩, ⟨"RGBA", 4⟩] : List PILImage).length
      = (["a.b.png", "c.jpg"] : List String).length
    ∧ (create_zip_file testOracle [⟨"RGBA", 3⟩, ⟨"RGBA", 4⟩] ["a.b.png", "c.jpg"]).map Prod.fst
      = ["no_bg_a.b.png", "no_bg_c.png"] := by
  refine ⟨by decide, ?_⟩
  have h := C9_archive_stem_last_dot testOracle [⟨"RGBA", 3⟩, ⟨"RGBA", 4⟩]
    ["a.b.png", "c.jpg"] (by decide)
  rw [h]
  decide

/-- C10: `create_zip_file` writes exactly one archive entry per image of
its input list, in list order — the archive is the pointwise zip of
images and filenames, its entry count equals the image count, and on a
stem collision both entries are written with the identical derived name
rather than one replacing the other. -/
theorem C10_one_entry_per_image (O : Oracle) (imgs : List PILImage)
    (names : List String) (h : imgs.length = names.length) :
    create_zip_file O imgs names
      = List.zipWith
          (fun im n => ("no_bg_" ++ pySplitextStem n ++ ".png", O.encodePNG im))
          imgs names
    ∧ (create_zip_file O imgs names).length = imgs.length
    ∧ (create_zip_file testOracle [⟨"RGBA", 1⟩, ⟨"RGBA", 2⟩] ["b.png", "b.jpg"]).map Prod.fst
      = ["no_bg_b.png", "no_bg_b.png"] := by
  refine ⟨create_zip_file_eq_zipWith O imgs names, ?_, by decide⟩
  rw [create_zip_file_eq_zipWith O imgs names, List.length_zipWith, h, Nat.min_self]

/-- Witness for C10 at a concrete two-image input whose filenames share
a stem. -/
theorem C10_one_entry_per_image_witness :
    ([⟨"RGBA", 1⟩, ⟨"RGBA", 2⟩] : List PILImage).length
      = (["b.png", "b.jpg"] : List String).length
    ∧ ((create_zip_file testOracle [⟨"RGBA", 1⟩, ⟨"RGBA", 2⟩] ["b.png", "b.jpg"]).length = 2
      ∧ (create_zip_file testOracle [⟨"RGBA", 1⟩, ⟨"RGBA", 2⟩] ["b.png", "b.jpg"]).map Prod.fst
        = ["no_bg_b.png", "no_bg_b.png"]) :=
  ⟨by decide,
    (C10_one_entry_per_image testOracle [⟨"RGBA", 1⟩, ⟨"RGBA", 2⟩] ["b.png", "b.jpg"]
      (by decide)).2⟩

end BgRemover
